import Mathlib

/-!
Shallow embedding of the ACP healthcare insurance backend
(src/main_system.py) — the policy/claim lifecycle and entitlement
operations: policy issuance and activation, claim submission and review,
payment recording, and the per-role list queries.

Datetimes are modelled at day granularity as natural numbers (an ordinal
day count); monetary `Float` columns are modelled as rationals. The
database session is modelled as an explicit record of the entity tables;
each route handler becomes a function from the database (and the
authenticated caller supplied by the dependency chain) to
`Except HTTPError (DB × result)`, mirroring `HTTPException` and the
commit-or-raise structure of the handlers.
-/

namespace ACP

/-- `UserRole` enum (main_system.py lines 64-68). -/
inductive UserRole where
  | admin
  | agent
  | customer
  | provider
deriving DecidableEq, Repr

/-- `PolicyStatus` enum (lines 70-74). -/
inductive PolicyStatus where
  | active
  | pending
  | expired
  | cancelled
deriving DecidableEq, Repr

/-- `ClaimStatus` enum (lines 76-81). -/
inductive ClaimStatus where
  | submitted
  | under_review
  | approved
  | rejected
  | paid
deriving DecidableEq, Repr

/-- The fields of the `users` table that the lifecycle operations read
(id, role, is_active); credentials and profile fields are irrelevant to
the embedded handlers. -/
structure User where
  id : Nat
  role : UserRole
  is_active : Bool
deriving DecidableEq, Repr

/-- The fields of the `insurance_plans` table read by the handlers
(lines 109-127). -/
structure InsurancePlan where
  id : Nat
  monthly_premium : Rat
  annual_premium : Rat
  coverage_amount : Rat
  is_active : Bool
deriving DecidableEq, Repr

/-- The `policies` table row (lines 129-148). -/
structure Policy where
  id : Nat
  policy_number : String
  user_id : Nat
  plan_id : Nat
  start_date : Nat
  end_date : Nat
  status : PolicyStatus
  premium_amount : Rat
  payment_frequency : String
  updated_at : Nat
deriving DecidableEq, Repr

/-- The `claims` table row (lines 150-173). -/
structure Claim where
  id : Nat
  claim_number : String
  user_id : Nat
  policy_id : Nat
  service_date : Nat
  provider_name : String
  claim_amount : Rat
  approved_amount : Rat
  status : ClaimStatus
  notes : Option String
  reviewed_by : Option Nat
  review_date : Option Nat
  updated_at : Nat
deriving DecidableEq, Repr

/-- The `payments` table row (lines 175-191). -/
structure Payment where
  id : Nat
  payment_reference : String
  user_id : Nat
  policy_id : Nat
  amount : Rat
  payment_method : String
  status : String
deriving DecidableEq, Repr

/-- `HTTPException(status_code=..., detail=...)`. -/
structure HTTPError where
  status_code : Nat
  detail : String
deriving DecidableEq, Repr

/-- The database session: one list per entity table. -/
structure DB where
  plans : List InsurancePlan
  policies : List Policy
  claims : List Claim
  payments : List Payment
deriving DecidableEq, Repr

/-- `db.query(Policy).filter(Policy.id == policy_id).first()`. -/
def findPolicy (db : DB) (policy_id : Nat) : Option Policy :=
  db.policies.find? (fun p => p.id == policy_id)

/-- `db.query(Claim).filter(Claim.id == claim_id).first()`. -/
def findClaim (db : DB) (claim_id : Nat) : Option Claim :=
  db.claims.find? (fun c => c.id == claim_id)

/-- `db.query(InsurancePlan).filter(InsurancePlan.id == plan_id).first()`. -/
def findPlan (db : DB) (plan_id : Nat) : Option InsurancePlan :=
  db.plans.find? (fun pl => pl.id == plan_id)

/-- The database state after running a handler: the committed session on
success, the untouched session when the handler raised. -/
def runDB (db : DB) (r : Except HTTPError (DB × α)) : DB :=
  match r with
  | .ok (db2, _) => db2
  | .error _ => db

/-- `get_current_active_user` (lines 361-364): raises 400 for an
inactive caller. (Token decoding is the out-of-scope identity
collaborator; the caller record itself is the input here.) -/
def require_active (current_user : User) : Except HTTPError Unit :=
  if current_user.is_active then .ok () else .error ⟨400, "Inactive user"⟩

/-- `check_admin` (lines 366-372): `get_current_active_user` then a 403
unless the role is admin. -/
def require_admin (current_user : User) : Except HTTPError Unit :=
  match require_active current_user with
  | .error e => .error e
  | .ok _ =>
    if current_user.role = UserRole.admin then .ok ()
    else .error ⟨403, "Not enough permissions"⟩

/-- Request body `PolicyCreate` (lines 243-250). -/
structure PolicyCreate where
  plan_id : Nat
  start_date : Nat
  payment_frequency : String
deriving DecidableEq, Repr

/-- `create_policy` handler (lines 557-595): looks the plan up by id
(404 `"Insurance plan not found"` when absent), computes
`end_date = start_date + 365` days, picks the monthly or annual premium
by payment frequency, and inserts a `pending` policy owned by the
caller. `new_id`/`policy_number` stand for the numbering collaborator,
`now` for the clock. -/
def create_policy (db : DB) (current_user : User) (policy : PolicyCreate)
    (policy_number : String) (new_id : Nat) (now : Nat) :
    Except HTTPError (DB × Policy) :=
  match require_active current_user with
  | .error e => .error e
  | .ok _ =>
  match findPlan db policy.plan_id with
  | none => .error ⟨404, "Insurance plan not found"⟩
  | some plan =>
    let end_date := policy.start_date + 365
    let premium_amount :=
      if policy.payment_frequency = "monthly" then plan.monthly_premium
      else plan.annual_premium
    let db_policy : Policy :=
      { id := new_id
        policy_number := policy_number
        user_id := current_user.id
        plan_id := policy.plan_id
        start_date := policy.start_date
        end_date := end_date
        status := PolicyStatus.pending
        premium_amount := premium_amount
        payment_frequency := policy.payment_frequency
        updated_at := now }
    .ok ({ db with policies := db.policies ++ [db_policy] }, db_policy)

/-- `get_policies` handler (lines 597-608): admins see every policy,
everyone else only their own; `offset(skip).limit(limit)` applied after
the filter. -/
def get_policies (db : DB) (current_user : User) (skip limit : Nat) :
    Except HTTPError (List Policy) :=
  match require_active current_user with
  | .error e => .error e
  | .ok _ =>
  if current_user.role = UserRole.admin then
    .ok ((db.policies.drop skip).take limit)
  else
    .ok (((db.policies.filter (fun p => p.user_id == current_user.id)).drop skip).take limit)

/-- `activate_policy` handler (lines 626-641): admin-only; 404 when the
policy id is absent; otherwise sets `status = ACTIVE` unconditionally —
the handler never inspects the current status. -/
def activate_policy (db : DB) (current_user : User) (policy_id : Nat)
    (now : Nat) : Except HTTPError (DB × Policy) :=
  match require_admin current_user with
  | .error e => .error e
  | .ok _ =>
  match findPolicy db policy_id with
  | none => .error ⟨404, "Policy not found"⟩
  | some policy =>
    let policy2 := { policy with status := PolicyStatus.active, updated_at := now }
    .ok ({ db with
            policies := db.policies.map (fun p => if p.id == policy_id then policy2 else p) },
         policy2)

/-- Request body `ClaimCreate` (lines 263-273). -/
structure ClaimCreate where
  policy_id : Nat
  service_date : Nat
  provider_name : String
  claim_amount : Rat
  notes : Option String
deriving DecidableEq, Repr

/-- `create_claim` handler (lines 644-671): 404 when the policy is
absent; 403 when the caller neither owns the policy nor is an admin;
400 `"Policy is not active"` when the policy status is not `active`;
otherwise inserts a `submitted` claim whose `user_id` is the caller's
id. Note the ownership check precedes the active-status check. -/
def create_claim (db : DB) (current_user : User) (claim : ClaimCreate)
    (claim_number : String) (new_id : Nat) (now : Nat) :
    Except HTTPError (DB × Claim) :=
  match require_active current_user with
  | .error e => .error e
  | .ok _ =>
  match findPolicy db claim.policy_id with
  | none => .error ⟨404, "Policy not found"⟩
  | some policy =>
    if policy.user_id ≠ current_user.id ∧ current_user.role ≠ UserRole.admin then
      .error ⟨403, "Not authorized to create claim for this policy"⟩
    else if policy.status ≠ PolicyStatus.active then
      .error ⟨400, "Policy is not active"⟩
    else
      let db_claim : Claim :=
        { id := new_id
          claim_number := claim_number
          user_id := current_user.id
          policy_id := claim.policy_id
          service_date := claim.service_date
          provider_name := claim.provider_name
          claim_amount := claim.claim_amount
          approved_amount := 0
          status := ClaimStatus.submitted
          notes := claim.notes
          reviewed_by := none
          review_date := none
          updated_at := now }
      .ok ({ db with claims := db.claims ++ [db_claim] }, db_claim)

/-- `get_claims` handler (lines 673-690): non-admins are restricted to
their own claims; an optional status filter; then offset/limit. -/
def get_claims (db : DB) (current_user : User) (skip limit : Nat)
    (status : Option ClaimStatus) : Except HTTPError (List Claim) :=
  match require_active current_user with
  | .error e => .error e
  | .ok _ =>
  let q := db.claims
  let q := if current_user.role ≠ UserRole.admin then
      q.filter (fun (c : Claim) => c.user_id == current_user.id)
    else q
  let q := match status with
    | some s => q.filter (fun (c : Claim) => c.status == s)
    | none => q
  .ok ((q.drop skip).take limit)

/-- Request body `ClaimUpdate` (lines 275-278); `exclude_unset` fields
are `none`. -/
structure ClaimUpdate where
  status : Option ClaimStatus
  approved_amount : Option Rat
  notes : Option String
deriving DecidableEq, Repr

/-- Lines 723-726: `if update_data.get("status")` — a provided status
is written together with `reviewed_by = current_user.id` and
`review_date = now`. (`ClaimStatus` values are non-empty strings, hence
always truthy.) -/
def applyStatus (claim : Claim) (current_user : User)
    (st : Option ClaimStatus) (now : Nat) : Claim :=
  match st with
  | some s =>
    { claim with
        status := s
        reviewed_by := some current_user.id
        review_date := some now }
  | none => claim

/-- Line 728-729: `if update_data.get("approved_amount") is not None`. -/
def applyApproved (claim : Claim) (am : Option Rat) : Claim :=
  match am with
  | some a => { claim with approved_amount := a }
  | none => claim

/-- Line 731-732: `if update_data.get("notes")` — truthiness, so an
empty string is skipped. -/
def applyNotes (claim : Claim) (nt : Option String) : Claim :=
  match nt with
  | some n => if n ≠ "" then { claim with notes := some n } else claim
  | none => claim

/-- The whole field-by-field mutation block of `update_claim` (lines
722-734): status, approved amount and notes in that order, then the
`updated_at` refresh. No field is validated against the claim's current
state. -/
def applyClaimUpdate (claim : Claim) (current_user : User)
    (claim_update : ClaimUpdate) (now : Nat) : Claim :=
  { applyNotes
      (applyApproved (applyStatus claim current_user claim_update.status now)
        claim_update.approved_amount)
      claim_update.notes with updated_at := now }

/-- `update_claim` handler (lines 707-739): 404 when the claim is
absent; 403 unless the caller is admin or agent; then applies the
provided fields unconditionally via `applyClaimUpdate`. No check of the
claim's current status is performed before applying a requested
transition. -/
def update_claim (db : DB) (current_user : User) (claim_id : Nat)
    (claim_update : ClaimUpdate) (now : Nat) :
    Except HTTPError (DB × Claim) :=
  match require_active current_user with
  | .error e => .error e
  | .ok _ =>
  match findClaim db claim_id with
  | none => .error ⟨404, "Claim not found"⟩
  | some claim =>
    if current_user.role ≠ UserRole.admin ∧ current_user.role ≠ UserRole.agent then
      .error ⟨403, "Not authorized to update claims"⟩
    else
      let claim2 := applyClaimUpdate claim current_user claim_update now
      .ok ({ db with
              claims := db.claims.map (fun c => if c.id == claim_id then claim2 else c) },
           claim2)

/-- Request body `PaymentCreate` (lines 291-299). -/
structure PaymentCreate where
  policy_id : Nat
  amount : Rat
  payment_method : String
deriving DecidableEq, Repr

/-- `create_payment` handler (lines 742-766): 404 when the policy is
absent; 403 when the caller neither owns the policy nor is an admin;
otherwise inserts a `completed` payment owned by the caller. -/
def create_payment (db : DB) (current_user : User) (payment : PaymentCreate)
    (payment_reference : String) (new_id : Nat) :
    Except HTTPError (DB × Payment) :=
  match require_active current_user with
  | .error e => .error e
  | .ok _ =>
  match findPolicy db payment.policy_id with
  | none => .error ⟨404, "Policy not found"⟩
  | some policy =>
    if policy.user_id ≠ current_user.id ∧ current_user.role ≠ UserRole.admin then
      .error ⟨403, "Not authorized to make payment for this policy"⟩
    else
      let db_payment : Payment :=
        { id := new_id
          payment_reference := payment_reference
          user_id := current_user.id
          policy_id := payment.policy_id
          amount := payment.amount
          payment_method := payment.payment_method
          status := "completed" }
      .ok ({ db with payments := db.payments ++ [db_payment] }, db_payment)

/-- `get_payments` handler (lines 768-779): admins see every payment,
everyone else only their own. -/
def get_payments (db : DB) (current_user : User) (skip limit : Nat) :
    Except HTTPError (List Payment) :=
  match require_active current_user with
  | .error e => .error e
  | .ok _ =>
  if current_user.role = UserRole.admin then
    .ok ((db.payments.drop skip).take limit)
  else
    .ok (((db.payments.filter (fun p => p.user_id == current_user.id)).drop skip).take limit)

/-! ### Calendar arithmetic

`create_policy` adds `timedelta(days=365)` to a datetime. To evaluate
the concrete scenario (2024-01-01 + 365 days = 2024-12-31) the day
ordinals come from the proleptic Gregorian calendar, as Python's
`datetime` uses. -/

/-- Gregorian leap-year rule. -/
def isLeap (y : Nat) : Bool :=
  (y % 4 == 0 && y % 100 != 0) || (y % 400 == 0)

/-- Days in the months preceding month `m` (1-based) of a common year. -/
def daysBeforeMonthCommon (m : Nat) : Nat :=
  match m with
  | 1 => 0
  | 2 => 31
  | 3 => 59
  | 4 => 90
  | 5 => 120
  | 6 => 151
  | 7 => 181
  | 8 => 212
  | 9 => 243
  | 10 => 273
  | 11 => 304
  | 12 => 334
  | _ => 365

/-- Days before Jan 1 of year `y` in the proleptic Gregorian calendar
(year 1 is day reference zero). -/
def daysBeforeYear (y : Nat) : Nat :=
  365 * (y - 1) + (y - 1) / 4 - (y - 1) / 100 + (y - 1) / 400

/-- Ordinal day number of the date `y-m-d` (matching Python
`datetime.date.toordinal`). -/
def dateToOrdinal (y m d : Nat) : Nat :=
  daysBeforeYear y + daysBeforeMonthCommon m
    + (if isLeap y && decide (m > 2) then 1 else 0) + d

/-! ### Result extractors and fixtures -/

/-- The returned entity of a handler that committed, `none` when it
raised. -/
def okValue : Except HTTPError (DB × α) → Option α
  | .ok (_, v) => some v
  | .error _ => none

/-- The response list of a read-only handler; empty when it raised. -/
def listOf : Except HTTPError (List α) → List α
  | .ok l => l
  | .error _ => []

/-- Every field of a `Policy` row except `status` and the `updated_at`
bookkeeping timestamp. -/
def policyFrame (p : Policy) :
    Nat × String × Nat × Nat × Nat × Nat × Rat × String :=
  (p.id, p.policy_number, p.user_id, p.plan_id, p.start_date,
   p.end_date, p.premium_amount, p.payment_frequency)

/-- Fixture: an active admin. -/
def exAdmin : User := ⟨1, UserRole.admin, true⟩

/-- Fixture: an active customer, owner of the fixture policies. -/
def exCustomer : User := ⟨2, UserRole.customer, true⟩

/-- Fixture: an active agent who owns no policy. -/
def exAgent : User := ⟨3, UserRole.agent, true⟩

/-- Fixture: an active plan, monthly premium 200. -/
def exPlan : InsurancePlan := ⟨1, 200, 2000, 1000, true⟩

/-- Fixture: an existing but deactivated plan. -/
def exPlanInactive : InsurancePlan := ⟨2, 150, 1500, 800, false⟩

/-- Fixture: an already-active policy owned by the customer. -/
def polActive : Policy :=
  ⟨1, "POL1000000001", 2, 1, 100, 465, PolicyStatus.active, 200, "monthly", 0⟩

/-- Fixture: a pending policy owned by the customer. -/
def polPending : Policy :=
  ⟨2, "POL1000000002", 2, 1, 100, 465, PolicyStatus.pending, 200, "monthly", 0⟩

/-- Fixture: a claim already in the terminal `paid` status. -/
def clmPaid : Claim :=
  ⟨1, "CLM1000000001", 2, 1, 120, "Dr. A", 100, 100, ClaimStatus.paid,
   none, some 1, some 3, 3⟩

/-- Fixture: a freshly submitted claim for amount 100. -/
def clmSubmitted : Claim :=
  ⟨2, "CLM1000000002", 2, 1, 130, "Dr. B", 100, 0, ClaimStatus.submitted,
   none, none, none, 4⟩

/-- Fixture: a payment by the customer. -/
def payDone : Payment := ⟨1, "PAY1000000001", 2, 1, 200, "card", "completed"⟩

/-- Fixture database holding the records above. -/
def exDB : DB :=
  ⟨[exPlan, exPlanInactive], [polActive, polPending],
   [clmPaid, clmSubmitted], [payDone]⟩

/-! ### Shape lemmas for the handlers -/

/-- Refreshing `updated_at` changes no other field. -/
theorem upd_at_fields (x : Claim) (n : Nat) :
    ({ x with updated_at := n } : Claim).claim_amount = x.claim_amount ∧
    ({ x with updated_at := n } : Claim).approved_amount = x.approved_amount ∧
    ({ x with updated_at := n } : Claim).status = x.status ∧
    ({ x with updated_at := n } : Claim).reviewed_by = x.reviewed_by ∧
    ({ x with updated_at := n } : Claim).review_date = x.review_date :=
  ⟨rfl, rfl, rfl, rfl, rfl⟩

/-- `applyNotes` only ever touches `notes`. -/
theorem applyNotes_fields (c : Claim) (nt : Option String) :
    (applyNotes c nt).claim_amount = c.claim_amount ∧
    (applyNotes c nt).approved_amount = c.approved_amount ∧
    (applyNotes c nt).status = c.status ∧
    (applyNotes c nt).reviewed_by = c.reviewed_by ∧
    (applyNotes c nt).review_date = c.review_date := by
  unfold applyNotes
  cases nt with
  | none => exact ⟨rfl, rfl, rfl, rfl, rfl⟩
  | some n =>
    dsimp only
    by_cases h : n ≠ ""
    · rw [if_pos h]; exact ⟨rfl, rfl, rfl, rfl, rfl⟩
    · rw [if_neg h]; exact ⟨rfl, rfl, rfl, rfl, rfl⟩

/-- `applyApproved` only ever touches `approved_amount`. -/
theorem applyApproved_fields (c : Claim) (am : Option Rat) :
    (applyApproved c am).claim_amount = c.claim_amount ∧
    (applyApproved c am).status = c.status ∧
    (applyApproved c am).reviewed_by = c.reviewed_by ∧
    (applyApproved c am).review_date = c.review_date := by
  unfold applyApproved
  cases am <;> exact ⟨rfl, rfl, rfl, rfl⟩

/-- `applyApproved` writes a provided amount verbatim and otherwise
leaves the field alone. -/
theorem applyApproved_amount (c : Claim) (am : Option Rat) :
    (applyApproved c am).approved_amount = am.getD c.approved_amount := by
  unfold applyApproved
  cases am <;> rfl

/-- `applyStatus` never touches the monetary amounts. -/
theorem applyStatus_amounts (c : Claim) (u : User)
    (st : Option ClaimStatus) (now : Nat) :
    (applyStatus c u st now).claim_amount = c.claim_amount ∧
    (applyStatus c u st now).approved_amount = c.approved_amount := by
  unfold applyStatus
  cases st <;> exact ⟨rfl, rfl⟩

/-- `applyStatus` on a provided status writes it together with the
reviewer id and the review timestamp. -/
theorem applyStatus_some (c : Claim) (u : User) (st : Option ClaimStatus)
    (now : Nat) (s : ClaimStatus) (hs : st = some s) :
    (applyStatus c u st now).status = s ∧
    (applyStatus c u st now).reviewed_by = some u.id ∧
    (applyStatus c u st now).review_date = some now := by
  rw [hs]
  exact ⟨rfl, rfl, rfl⟩

/-- `applyStatus` without a provided status is the identity. -/
theorem applyStatus_none (c : Claim) (u : User) (st : Option ClaimStatus)
    (now : Nat) (hs : st = none) :
    applyStatus c u st now = c := by
  rw [hs]
  rfl

/-- `applyClaimUpdate` never touches the claimed amount. -/
theorem applyClaimUpdate_claim_amount (c : Claim) (u : User)
    (cu : ClaimUpdate) (now : Nat) :
    (applyClaimUpdate c u cu now).claim_amount = c.claim_amount := by
  unfold applyClaimUpdate
  rw [(upd_at_fields _ _).1, (applyNotes_fields _ _).1,
    (applyApproved_fields _ _).1, (applyStatus_amounts _ _ _ _).1]

/-- When a status is provided, `applyClaimUpdate` writes it along with
the reviewer id and the review timestamp. -/
theorem applyClaimUpdate_status_some (c : Claim) (u : User)
    (cu : ClaimUpdate) (now : Nat) (s : ClaimStatus)
    (hs : cu.status = some s) :
    (applyClaimUpdate c u cu now).status = s ∧
    (applyClaimUpdate c u cu now).reviewed_by = some u.id ∧
    (applyClaimUpdate c u cu now).review_date = some now := by
  unfold applyClaimUpdate
  rw [(upd_at_fields _ _).2.2.1, (upd_at_fields _ _).2.2.2.1,
    (upd_at_fields _ _).2.2.2.2, (applyNotes_fields _ _).2.2.1,
    (applyNotes_fields _ _).2.2.2.1, (applyNotes_fields _ _).2.2.2.2,
    (applyApproved_fields _ _).2.1, (applyApproved_fields _ _).2.2.1,
    (applyApproved_fields _ _).2.2.2]
  exact applyStatus_some c u cu.status now s hs

/-- When no status is provided, `applyClaimUpdate` leaves it alone. -/
theorem applyClaimUpdate_status_none (c : Claim) (u : User)
    (cu : ClaimUpdate) (now : Nat) (hs : cu.status = none) :
    (applyClaimUpdate c u cu now).status = c.status := by
  unfold applyClaimUpdate
  rw [(upd_at_fields _ _).2.2.1, (applyNotes_fields _ _).2.2.1,
    (applyApproved_fields _ _).2.1, applyStatus_none c u cu.status now hs]

/-- A provided approved amount is written verbatim. -/
theorem applyClaimUpdate_approved_some (c : Claim) (u : User)
    (cu : ClaimUpdate) (now : Nat) (a : Rat)
    (ha : cu.approved_amount = some a) :
    (applyClaimUpdate c u cu now).approved_amount = a := by
  unfold applyClaimUpdate
  rw [(upd_at_fields _ _).2.1, (applyNotes_fields _ _).2.1,
    applyApproved_amount, ha]
  rfl

/-- Success shape of `update_claim`: an active admin/agent caller and an
existing claim commit `applyClaimUpdate` into the claims table. -/
theorem update_claim_ok (db : DB) (u : User) (cid now : Nat)
    (cu : ClaimUpdate) (c : Claim)
    (hact : u.is_active = true)
    (hrole : u.role = UserRole.admin ∨ u.role = UserRole.agent)
    (hfind : findClaim db cid = some c) :
    update_claim db u cid cu now =
      .ok ({ db with
              claims := db.claims.map
                (fun x => if x.id == cid then applyClaimUpdate c u cu now else x) },
           applyClaimUpdate c u cu now) := by
  have hg : ¬(u.role ≠ UserRole.admin ∧ u.role ≠ UserRole.agent) := by
    rcases hrole with h | h <;> simp [h]
  simp only [update_claim, require_active, hact, if_true, hfind]
  rw [if_neg hg]

/-- Success shape of `activate_policy`: an active admin caller and an
existing policy commit the status overwrite. -/
theorem activate_policy_ok (db : DB) (u : User) (pid now : Nat)
    (p : Policy) (hact : u.is_active = true)
    (hrole : u.role = UserRole.admin)
    (hfind : findPolicy db pid = some p) :
    activate_policy db u pid now =
      .ok ({ db with
              policies := db.policies.map
                (fun q => if q.id == pid then
                  { p with status := PolicyStatus.active, updated_at := now }
                 else q) },
           { p with status := PolicyStatus.active, updated_at := now }) := by
  simp only [activate_policy, require_admin, require_active, hact, if_true,
    hrole, hfind]

/-- Success shape of `create_policy`: an active caller and an existing
plan (active or not) commit the freshly issued pending policy. -/
theorem create_policy_ok (db : DB) (u : User) (pc : PolicyCreate)
    (num : String) (nid now : Nat) (plan : InsurancePlan)
    (hact : u.is_active = true)
    (hplan : findPlan db pc.plan_id = some plan) :
    create_policy db u pc num nid now =
      .ok ({ db with policies := db.policies ++
              [{ id := nid
                 policy_number := num
                 user_id := u.id
                 plan_id := pc.plan_id
                 start_date := pc.start_date
                 end_date := pc.start_date + 365
                 status := PolicyStatus.pending
                 premium_amount :=
                   if pc.payment_frequency = "monthly" then plan.monthly_premium
                   else plan.annual_premium
                 payment_frequency := pc.payment_frequency
                 updated_at := now }] },
           { id := nid
             policy_number := num
             user_id := u.id
             plan_id := pc.plan_id
             start_date := pc.start_date
             end_date := pc.start_date + 365
             status := PolicyStatus.pending
             premium_amount :=
               if pc.payment_frequency = "monthly" then plan.monthly_premium
               else plan.annual_premium
             payment_frequency := pc.payment_frequency
             updated_at := now }) := by
  simp only [create_policy, require_active, hact, if_true, hplan]

/-- C1 counterexample: the fixture policy 1 is already `active` (not
`pending`), yet `activate_policy` succeeds and returns it as `active`
instead of failing with an invalid-transition error. -/
theorem activate_policy_nonpending_no_error :
    (findPolicy exDB 1).map Policy.status = some PolicyStatus.active ∧
    (okValue (activate_policy exDB exAdmin 1 9)).map Policy.status
      = some PolicyStatus.active := by
  exact ⟨rfl, rfl⟩

/-- C1 (amended): for an active admin caller and an existing policy,
`activate_policy` always succeeds and yields status `active`, whatever
the current status is — the handler performs no `pending` check and
raises no invalid-transition error. -/
theorem activate_policy_unconditional (db : DB) (u : User)
    (pid now : Nat) (p : Policy)
    (hact : u.is_active = true) (hrole : u.role = UserRole.admin)
    (hfind : findPolicy db pid = some p) :
    (okValue (activate_policy db u pid now)).map Policy.status
      = some PolicyStatus.active := by
  rw [activate_policy_ok db u pid now p hact hrole hfind]
  rfl

/-- Witness for C1 at the pending fixture policy. -/
theorem activate_policy_unconditional_witness :
    exAdmin.is_active = true ∧ exAdmin.role = UserRole.admin ∧
    findPolicy exDB 2 = some polPending ∧
    (okValue (activate_policy exDB exAdmin 2 9)).map Policy.status
      = some PolicyStatus.active :=
  ⟨rfl, rfl, rfl,
   activate_policy_unconditional exDB exAdmin 2 9 polPending rfl rfl rfl⟩

/-- C5: a successful issuance against an existing plan yields
`end_date = start_date + 365` days, the monthly premium for monthly
frequency and the annual premium otherwise, and status `pending`. -/
theorem create_policy_issuance_fields (db : DB) (u : User)
    (pc : PolicyCreate) (num : String) (nid now : Nat)
    (plan : InsurancePlan)
    (hact : u.is_active = true)
    (hplan : findPlan db pc.plan_id = some plan) :
    (okValue (create_policy db u pc num nid now)).map
        (fun p => (p.end_date, p.premium_amount, p.status))
      = some (pc.start_date + 365,
              (if pc.payment_frequency = "monthly" then plan.monthly_premium
               else plan.annual_premium),
              PolicyStatus.pending) := by
  rw [create_policy_ok db u pc num nid now plan hact hplan]
  rfl

/-- Witness for C5: issuing against the fixture plan (monthly premium
200) with start date 2024-01-01 and monthly frequency yields end date
2024-12-31 (365 days later), premium 200 and status `pending`. -/
theorem create_policy_issuance_fields_witness :
    exCustomer.is_active = true ∧
    findPlan exDB 1 = some exPlan ∧
    dateToOrdinal 2024 1 1 + 365 = dateToOrdinal 2024 12 31 ∧
    (okValue (create_policy exDB exCustomer
        ⟨1, dateToOrdinal 2024 1 1, "monthly"⟩ "POL1000000009" 9 9)).map
        (fun p => (p.end_date, p.premium_amount, p.status))
      = some (dateToOrdinal 2024 12 31, (200 : Rat), PolicyStatus.pending) := by
  refine ⟨rfl, rfl, by decide, ?_⟩
  have h := create_policy_issuance_fields exDB exCustomer
    ⟨1, dateToOrdinal 2024 1 1, "monthly"⟩ "POL1000000009" 9 9 exPlan rfl rfl
  rw [h]
  decide

/-- C2 counterexample: fixture claim 1 is already `paid` (terminal),
yet `update_claim` requesting a further status change succeeds and
moves it to `under_review` — no invalid-transition failure, and the
claim does not stay unchanged. -/
theorem update_claim_terminal_no_error :
    (findClaim exDB 1).map Claim.status = some ClaimStatus.paid ∧
    (okValue (update_claim exDB exAgent 1
        ⟨some ClaimStatus.under_review, none, none⟩ 9)).map Claim.status
      = some ClaimStatus.under_review :=
  ⟨rfl, rfl⟩

/-- C2 (amended): `update_claim` performs no terminal-status check —
for an active admin/agent caller, a review call on a claim whose status
is `paid` or `rejected` that requests a further status change succeeds
and applies the requested status. -/
theorem update_claim_ignores_terminal_status (db : DB) (u : User)
    (cid now : Nat) (s : ClaimStatus) (c : Claim)
    (hact : u.is_active = true)
    (hrole : u.role = UserRole.admin ∨ u.role = UserRole.agent)
    (hfind : findClaim db cid = some c)
    (hterm : c.status = ClaimStatus.paid ∨ c.status = ClaimStatus.rejected) :
    (okValue (update_claim db u cid ⟨some s, none, none⟩ now)).map Claim.status
      = some s := by
  rw [update_claim_ok db u cid now ⟨some s, none, none⟩ c hact hrole hfind]
  exact congrArg some
    (applyClaimUpdate_status_some c u ⟨some s, none, none⟩ now s rfl).1

/-- Witness for C2 at the paid fixture claim. -/
theorem update_claim_ignores_terminal_status_witness :
    exAgent.is_active = true ∧
    (exAgent.role = UserRole.admin ∨ exAgent.role = UserRole.agent) ∧
    findClaim exDB 1 = some clmPaid ∧
    (clmPaid.status = ClaimStatus.paid ∨ clmPaid.status = ClaimStatus.rejected) ∧
    (okValue (update_claim exDB exAgent 1
        ⟨some ClaimStatus.approved, none, none⟩ 9)).map Claim.status
      = some ClaimStatus.approved :=
  ⟨rfl, Or.inr rfl, rfl, Or.inl rfl,
   update_claim_ignores_terminal_status exDB exAgent 1 9 ClaimStatus.approved
     clmPaid rfl (Or.inr rfl) rfl (Or.inl rfl)⟩

/-- C3 counterexample: fixture claim 2 has claimed amount 100; a review
passing approved amount 200 succeeds and stores 200, so after the call
`approved_amount ≤ claim_amount` fails and no invalid-amount error was
raised. -/
theorem update_claim_exceeding_amount_accepted :
    (findClaim exDB 2).map Claim.claim_amount = some (100 : Rat) ∧
    (okValue (update_claim exDB exAdmin 2 ⟨none, some 200, none⟩ 9)).map
        (fun c => (c.approved_amount, c.claim_amount))
      = some ((200 : Rat), (100 : Rat)) ∧
    ¬ (200 : Rat) ≤ (100 : Rat) :=
  ⟨rfl, rfl, by norm_num⟩

/-- C3 (amended): `update_claim` writes any provided approved amount
without comparing it to the claimed amount — for an active admin/agent
caller and an existing claim, an approved amount strictly greater than
the claimed amount is accepted, leaving the claim with
`approved_amount > claim_amount`; no invalid-amount error exists. -/
theorem update_claim_approved_amount_unchecked (db : DB) (u : User)
    (cid now : Nat) (a : Rat) (c : Claim)
    (hact : u.is_active = true)
    (hrole : u.role = UserRole.admin ∨ u.role = UserRole.agent)
    (hfind : findClaim db cid = some c)
    (hgt : c.claim_amount < a) :
    (okValue (update_claim db u cid ⟨none, some a, none⟩ now)).map
        (fun x => (x.approved_amount, x.claim_amount))
      = some (a, c.claim_amount) ∧
    ¬ a ≤ c.claim_amount := by
  refine ⟨?_, not_le.mpr hgt⟩
  rw [update_claim_ok db u cid now ⟨none, some a, none⟩ c hact hrole hfind]
  show some ((applyClaimUpdate c u ⟨none, some a, none⟩ now).approved_amount,
             (applyClaimUpdate c u ⟨none, some a, none⟩ now).claim_amount)
    = some (a, c.claim_amount)
  rw [applyClaimUpdate_approved_some c u ⟨none, some a, none⟩ now a rfl,
    applyClaimUpdate_claim_amount c u ⟨none, some a, none⟩ now]

/-- Witness for C3: approved amount 200 against claimed amount 100. -/
theorem update_claim_approved_amount_unchecked_witness :
    exAdmin.is_active = true ∧
    (exAdmin.role = UserRole.admin ∨ exAdmin.role = UserRole.agent) ∧
    findClaim exDB 2 = some clmSubmitted ∧
    clmSubmitted.claim_amount < (200 : Rat) ∧
    (okValue (update_claim exDB exAdmin 2 ⟨none, some 200, none⟩ 9)).map
        (fun x => (x.approved_amount, x.claim_amount))
      = some ((200 : Rat), clmSubmitted.claim_amount) :=
  ⟨rfl, Or.inl rfl, rfl, by norm_num [clmSubmitted],
   (update_claim_approved_amount_unchecked exDB exAdmin 2 9 200 clmSubmitted
     rfl (Or.inl rfl) rfl (by norm_num [clmSubmitted])).1⟩

/-- C8: a successful `update_claim` by an active admin/agent caller on
an existing claim can only change the status when one is provided, and
whenever one is provided the reviewer's user id and the review
timestamp are recorded on the claim. -/
theorem update_claim_records_reviewer (db : DB) (u : User)
    (cid now : Nat) (cu : ClaimUpdate) (c : Claim)
    (hact : u.is_active = true)
    (hrole : u.role = UserRole.admin ∨ u.role = UserRole.agent)
    (hfind : findClaim db cid = some c) :
    (cu.status = none →
      (okValue (update_claim db u cid cu now)).map Claim.status
        = some c.status) ∧
    (∀ s, cu.status = some s →
      (okValue (update_claim db u cid cu now)).map
          (fun x => (x.reviewed_by, x.review_date))
        = some (some u.id, some now)) := by
  rw [update_claim_ok db u cid now cu c hact hrole hfind]
  constructor
  · intro hs
    exact congrArg some (applyClaimUpdate_status_none c u cu now hs)
  · intro s hs
    show some ((applyClaimUpdate c u cu now).reviewed_by,
               (applyClaimUpdate c u cu now).review_date)
      = some (some u.id, some now)
    have h := applyClaimUpdate_status_some c u cu now s hs
    rw [h.2.1, h.2.2]

/-- Witness for C8: the agent (id 3) reviewing fixture claim 2 to
`approved` at time 9 records reviewer id 3 and review date 9. -/
theorem update_claim_records_reviewer_witness :
    exAgent.is_active = true ∧
    (exAgent.role = UserRole.admin ∨ exAgent.role = UserRole.agent) ∧
    findClaim exDB 2 = some clmSubmitted ∧
    (okValue (update_claim exDB exAgent 2
        ⟨some ClaimStatus.approved, none, none⟩ 9)).map
        (fun x => (x.reviewed_by, x.review_date))
      = some (some 3, some 9) :=
  ⟨rfl, Or.inr rfl, rfl,
   (update_claim_records_reviewer exDB exAgent 2 9
       ⟨some ClaimStatus.approved, none, none⟩ clmSubmitted
       rfl (Or.inr rfl) rfl).2 ClaimStatus.approved rfl⟩

/-- C10: every claim returned by a successful `create_claim` is owned
by the authenticated caller — `user_id` is set from `current_user.id`,
never from the policy's owner. -/
theorem create_claim_owned_by_caller (db : DB) (u : User)
    (cc : ClaimCreate) (num : String) (nid now : Nat) (c2 : Claim)
    (hok : okValue (create_claim db u cc num nid now) = some c2) :
    c2.user_id = u.id := by
  unfold create_claim require_active at hok
  by_cases hia : u.is_active = true
  · rw [if_pos hia] at hok
    cases hp : findPolicy db cc.policy_id with
    | none => rw [hp] at hok; simp [okValue] at hok
    | some policy =>
      rw [hp] at hok
      dsimp only at hok
      split at hok
      · simp [okValue] at hok
      · split at hok
        · simp [okValue] at hok
        · simp only [okValue, Option.some.injEq] at hok
          rw [← hok]
  · rw [if_neg hia] at hok
    simp [okValue] at hok

/-- Witness for C10: the admin (id 1) submitting a claim against the
customer's (id 2) active policy yields a claim owned by the admin. -/
theorem create_claim_owned_by_caller_witness :
    (findPolicy exDB 1).map Policy.user_id = some 2 ∧
    okValue (create_claim exDB exAdmin ⟨1, 140, "Dr. C", 50, none⟩
        "CLM1000000009" 9 9)
      = some ⟨9, "CLM1000000009", 1, 1, 140, "Dr. C", 50, 0,
              ClaimStatus.submitted, none, none, none, 9⟩ ∧
    (⟨9, "CLM1000000009", 1, 1, 140, "Dr. C", 50, 0,
      ClaimStatus.submitted, none, none, none, 9⟩ : Claim).user_id = 1 ∧
    (1 : Nat) ≠ 2 :=
  ⟨rfl, rfl,
   create_claim_owned_by_caller exDB exAdmin ⟨1, 140, "Dr. C", 50, none⟩
     "CLM1000000009" 9 9 _ rfl,
   by decide⟩

/-- C4 counterexample: the agent (role `agent`, not the owner of
pending fixture policy 2) submitting against that non-active policy is
rejected with the 403 not-authorized error, not with the 400
policy-not-active error — so not every caller role sees
`PolicyNotActive`. -/
theorem create_claim_nonowner_agent_gets_forbidden :
    (findPolicy exDB 2).map Policy.status = some PolicyStatus.pending ∧
    exAgent.role = UserRole.agent ∧
    (findPolicy exDB 2).map Policy.user_id = some 2 ∧
    exAgent.id = 3 ∧
    create_claim exDB exAgent ⟨2, 140, "Dr. C", 50, none⟩ "CLM1000000010" 9 9
      = .error ⟨403, "Not authorized to create claim for this policy"⟩ :=
  ⟨rfl, rfl, rfl, rfl, rfl⟩

/-- C4 (amended): for callers who pass the ownership check — the
policy's owner or an admin — submitting a claim against a non-`active`
policy always fails with the 400 policy-not-active error and the
database (in particular the claims table) is left unchanged; other
callers fail even earlier, with a 403 not-authorized error. -/
theorem create_claim_inactive_policy_rejected (db : DB) (u : User)
    (cc : ClaimCreate) (num : String) (nid now : Nat) (policy : Policy)
    (hact : u.is_active = true)
    (hfind : findPolicy db cc.policy_id = some policy)
    (hstat : policy.status ≠ PolicyStatus.active)
    (hauth : policy.user_id = u.id ∨ u.role = UserRole.admin) :
    create_claim db u cc num nid now = .error ⟨400, "Policy is not active"⟩ ∧
    runDB db (create_claim db u cc num nid now) = db := by
  have hg : ¬(policy.user_id ≠ u.id ∧ u.role ≠ UserRole.admin) := by
    rcases hauth with h | h <;> simp [h]
  have herr : create_claim db u cc num nid now
      = .error ⟨400, "Policy is not active"⟩ := by
    unfold create_claim require_active
    rw [if_pos hact, hfind]
    dsimp only
    rw [if_neg hg, if_pos hstat]
  exact ⟨herr, by rw [herr]; rfl⟩

/-- Witness for C4: the owner submitting against their own pending
policy. -/
theorem create_claim_inactive_policy_rejected_witness :
    exCustomer.is_active = true ∧
    findPolicy exDB 2 = some polPending ∧
    polPending.status ≠ PolicyStatus.active ∧
    (polPending.user_id = exCustomer.id ∨ exCustomer.role = UserRole.admin) ∧
    create_claim exDB exCustomer ⟨2, 140, "Dr. D", 50, none⟩
        "CLM1000000011" 9 9 = .error ⟨400, "Policy is not active"⟩ ∧
    runDB exDB (create_claim exDB exCustomer ⟨2, 140, "Dr. D", 50, none⟩
        "CLM1000000011" 9 9) = exDB :=
  ⟨rfl, rfl, by decide, Or.inl rfl,
   (create_claim_inactive_policy_rejected exDB exCustomer
     ⟨2, 140, "Dr. D", 50, none⟩ "CLM1000000011" 9 9 polPending
     rfl rfl (by decide) (Or.inl rfl)).1,
   (create_claim_inactive_policy_rejected exDB exCustomer
     ⟨2, 140, "Dr. D", 50, none⟩ "CLM1000000011" 9 9 polPending
     rfl rfl (by decide) (Or.inl rfl)).2⟩

/-- C6 counterexample: fixture plan 2 exists but is inactive
(`is_active = false`); issuance against it nevertheless succeeds and a
pending policy is created — no plan-not-found failure. -/
theorem create_policy_inactive_plan_accepted :
    (findPlan exDB 2).map InsurancePlan.is_active = some false ∧
    (okValue (create_policy exDB exCustomer ⟨2, 100, "monthly"⟩
        "POL1000000010" 9 9)).map Policy.status = some PolicyStatus.pending :=
  ⟨rfl, rfl⟩

/-- C6 (amended): `create_policy` fails with the 404 plan-not-found
error exactly when the referenced plan id is absent (and then creates
nothing); whenever the plan exists — active or not, since the handler
never reads `is_active` — issuance succeeds. -/
theorem create_policy_plan_existence_only (db : DB) (u : User)
    (pc : PolicyCreate) (num : String) (nid now : Nat)
    (hact : u.is_active = true) :
    (findPlan db pc.plan_id = none →
      create_policy db u pc num nid now
          = .error ⟨404, "Insurance plan not found"⟩ ∧
      runDB db (create_policy db u pc num nid now) = db) ∧
    (∀ plan, findPlan db pc.plan_id = some plan →
      (okValue (create_policy db u pc num nid now)).isSome = true) := by
  constructor
  · intro hnone
    have herr : create_policy db u pc num nid now
        = .error ⟨404, "Insurance plan not found"⟩ := by
      unfold create_policy require_active
      rw [if_pos hact, hnone]
    exact ⟨herr, by rw [herr]; rfl⟩
  · intro plan hplan
    rw [create_policy_ok db u pc num nid now plan hact hplan]
    rfl

/-- Witness for C6: plan 99 is missing (404, nothing created); plan 2
exists but inactive (issuance succeeds). -/
theorem create_policy_plan_existence_only_witness :
    exCustomer.is_active = true ∧
    findPlan exDB 99 = none ∧
    create_policy exDB exCustomer ⟨99, 100, "monthly"⟩ "POL1000000011" 9 9
      = .error ⟨404, "Insurance plan not found"⟩ ∧
    findPlan exDB 2 = some exPlanInactive ∧
    exPlanInactive.is_active = false ∧
    (okValue (create_policy exDB exCustomer ⟨2, 100, "monthly"⟩
        "POL1000000012" 9 9)).isSome = true := by
  refine ⟨rfl, rfl, ?_, rfl, rfl, ?_⟩
  · exact ((create_policy_plan_existence_only exDB exCustomer
      ⟨99, 100, "monthly"⟩ "POL1000000011" 9 9 rfl).1 rfl).1
  · exact (create_policy_plan_existence_only exDB exCustomer
      ⟨2, 100, "monthly"⟩ "POL1000000012" 9 9 rfl).2 exPlanInactive rfl

/-- Paginating a filtered list keeps the filter's guarantee. -/
theorem all_take_drop_filter {α} (l : List α) (p : α → Bool)
    (skip limit : Nat) :
    (((l.filter p).drop skip).take limit).all p = true := by
  rw [List.all_eq_true]
  intro x hx
  exact List.of_mem_filter (List.mem_of_mem_drop (List.mem_of_mem_take hx))

/-- C9: for an active non-admin caller, the policy, claim and payment
list handlers return only records whose `user_id` is the caller's id
(for any pagination window and any optional claim-status filter). -/
theorem nonadmin_lists_scoped_to_caller (db : DB) (u : User)
    (skip limit : Nat) (st : Option ClaimStatus)
    (hact : u.is_active = true) (hrole : u.role ≠ UserRole.admin) :
    (listOf (get_policies db u skip limit)).all
        (fun p => p.user_id == u.id) = true ∧
    (listOf (get_claims db u skip limit st)).all
        (fun c => c.user_id == u.id) = true ∧
    (listOf (get_payments db u skip limit)).all
        (fun p => p.user_id == u.id) = true := by
  refine ⟨?_, ?_, ?_⟩
  · unfold get_policies require_active
    rw [if_pos hact]
    dsimp only
    rw [if_neg hrole]
    exact all_take_drop_filter db.policies _ skip limit
  · unfold get_claims require_active
    rw [if_pos hact]
    dsimp only
    rw [if_pos hrole]
    cases st with
    | none => exact all_take_drop_filter db.claims _ skip limit
    | some s =>
      dsimp only
      rw [List.all_eq_true]
      intro x hx
      have hx2 : x ∈ (((db.claims.filter
          (fun c => c.user_id == u.id)).filter
            (fun c => c.status == s)).drop skip).take limit := hx
      have hx3 : x ∈ db.claims.filter (fun c => c.user_id == u.id) :=
        List.mem_of_mem_filter (List.mem_of_mem_drop (List.mem_of_mem_take hx2))
      exact (List.mem_filter.mp hx3).2
  · unfold get_payments require_active
    rw [if_pos hact]
    dsimp only
    rw [if_neg hrole]
    exact all_take_drop_filter db.payments _ skip limit

/-- Witness for C9: the customer (id 2) listing policies, claims and
payments sees only records owned by user 2. -/
theorem nonadmin_lists_scoped_to_caller_witness :
    exCustomer.is_active = true ∧
    exCustomer.role ≠ UserRole.admin ∧
    (listOf (get_policies exDB exCustomer 0 100)).all
        (fun p => p.user_id == exCustomer.id) = true ∧
    (listOf (get_claims exDB exCustomer 0 100 none)).all
        (fun c => c.user_id == exCustomer.id) = true ∧
    (listOf (get_payments exDB exCustomer 0 100)).all
        (fun p => p.user_id == exCustomer.id) = true := by
  have h := nonadmin_lists_scoped_to_caller exDB exCustomer 0 100 none
    rfl (by decide)
  exact ⟨rfl, by decide, h.1, h.2.1, h.2.2⟩

/-- Replacing, in a list of policies with pairwise distinct ids, the row
found by id with a row that agrees on every frame field leaves the
frame projection of the whole table unchanged. -/
theorem map_frame_replace (l : List Policy) (pid : Nat) (b a : Policy)
    (hnd : (l.map Policy.id).Nodup)
    (hfind : l.find? (fun p => p.id == pid) = some a)
    (hfb : policyFrame b = policyFrame a) :
    (l.map (fun p => if p.id == pid then b else p)).map policyFrame
      = l.map policyFrame := by
  induction l with
  | nil => simp at hfind
  | cons x xs ih =>
    simp only [List.map_cons] at hnd ⊢
    have hnd2 := List.nodup_cons.mp hnd
    by_cases hx : (x.id == pid) = true
    · rw [List.find?_cons] at hfind
      rw [hx] at hfind
      dsimp only at hfind
      have hax : a = x := by injection hfind with h; exact h.symm
      have hxid : x.id = pid := by simpa using hx
      congr 1
      · rw [if_pos hx, hfb, hax]
      · have hrest : ∀ y ∈ xs, (fun p => if p.id == pid then b else p) y = y := by
          intro y hy
          have hyid : y.id ≠ pid := by
            intro hcontra
            have hmem : y.id ∈ xs.map Policy.id :=
              List.mem_map_of_mem Policy.id hy
            rw [hcontra.trans hxid.symm] at hmem
            exact hnd2.1 hmem
          show (if (y.id == pid) = true then b else y) = y
          rw [if_neg (by simpa using hyid)]
        rw [List.map_congr_left hrest]
        simp
    · rw [List.find?_cons] at hfind
      rw [show (x.id == pid) = false from by simpa using hx] at hfind
      dsimp only at hfind
      congr 1
      · rw [if_neg hx]
      · exact ih hnd2.2 hfind

/-- `create_claim` never writes the policies table. -/
theorem create_claim_policies_unchanged (db : DB) (u : User)
    (cc : ClaimCreate) (num : String) (nid now : Nat) :
    (runDB db (create_claim db u cc num nid now)).policies = db.policies := by
  unfold create_claim require_active
  by_cases h : u.is_active = true
  · rw [if_pos h]
    cases hf : findPolicy db cc.policy_id with
    | none => rfl
    | some policy =>
      dsimp only
      split
      · rfl
      · split <;> rfl
  · rw [if_neg h]
    rfl

/-- `update_claim` never writes the policies table. -/
theorem update_claim_policies_unchanged (db : DB) (u : User)
    (cid : Nat) (cu : ClaimUpdate) (now : Nat) :
    (runDB db (update_claim db u cid cu now)).policies = db.policies := by
  unfold update_claim require_active
  by_cases h : u.is_active = true
  · rw [if_pos h]
    cases hf : findClaim db cid with
    | none => rfl
    | some claim =>
      dsimp only
      split <;> rfl
  · rw [if_neg h]
    rfl

/-- `create_payment` never writes the policies table. -/
theorem create_payment_policies_unchanged (db : DB) (u : User)
    (pc : PaymentCreate) (ref : String) (nid : Nat) :
    (runDB db (create_payment db u pc ref nid)).policies = db.policies := by
  unfold create_payment require_active
  by_cases h : u.is_active = true
  · rw [if_pos h]
    cases hf : findPolicy db pc.policy_id with
    | none => rfl
    | some policy =>
      dsimp only
      split <;> rfl
  · rw [if_neg h]
    rfl

/-- C7: given the primary-key invariant (pairwise distinct policy ids),
none of the later lifecycle operations — policy activation, claim
submission, claim review, payment recording — changes any field of any
stored policy other than `status` and the `updated_at` bookkeeping
timestamp; in particular every policy's `premium_amount` is preserved.
-/
theorem lifecycle_ops_preserve_policy_frame (db : DB)
    (u1 u2 u3 u4 : User) (pid now1 : Nat)
    (cc : ClaimCreate) (num2 : String) (nid2 now2 : Nat)
    (cid : Nat) (cu : ClaimUpdate) (now3 : Nat)
    (pc : PaymentCreate) (ref : String) (nid4 : Nat)
    (hnd : (db.policies.map Policy.id).Nodup) :
    ((runDB db (activate_policy db u1 pid now1)).policies).map policyFrame
      = db.policies.map policyFrame ∧
    ((runDB db (create_claim db u2 cc num2 nid2 now2)).policies).map policyFrame
      = db.policies.map policyFrame ∧
    ((runDB db (update_claim db u3 cid cu now3)).policies).map policyFrame
      = db.policies.map policyFrame ∧
    ((runDB db (create_payment db u4 pc ref nid4)).policies).map policyFrame
      = db.policies.map policyFrame := by
  refine ⟨?_, ?_, ?_, ?_⟩
  · unfold activate_policy
    cases hra : require_admin u1 with
    | error e => rfl
    | ok v =>
      cases hf : findPolicy db pid with
      | none => rfl
      | some a =>
        dsimp only
        exact map_frame_replace db.policies pid _ a hnd
          (by unfold findPolicy at hf; exact hf) rfl
  · rw [create_claim_policies_unchanged db u2 cc num2 nid2 now2]
  · rw [update_claim_policies_unchanged db u3 cid cu now3]
  · rw [create_payment_policies_unchanged db u4 pc ref nid4]

/-- Witness for C7 at the fixture database (distinct policy ids 1, 2):
activation of policy 1, a claim against policy 1, a review of claim 1
and a payment on policy 1 all preserve the frame of the policies table.
-/
theorem lifecycle_ops_preserve_policy_frame_witness :
    (exDB.policies.map Policy.id).Nodup ∧
    ((runDB exDB (activate_policy exDB exAdmin 1 9)).policies).map policyFrame
      = exDB.policies.map policyFrame ∧
    ((runDB exDB (create_claim exDB exCustomer ⟨1, 140, "Dr. E", 50, none⟩
        "CLM1000000012" 9 9)).policies).map policyFrame
      = exDB.policies.map policyFrame ∧
    ((runDB exDB (update_claim exDB exAgent 1
        ⟨some ClaimStatus.approved, some 50, none⟩ 9)).policies).map policyFrame
      = exDB.policies.map policyFrame ∧
    ((runDB exDB (create_payment exDB exCustomer ⟨1, 200, "card"⟩
        "PAY1000000009" 9)).policies).map policyFrame
      = exDB.policies.map policyFrame := by
  have h := lifecycle_ops_preserve_policy_frame exDB exAdmin exCustomer
    exAgent exCustomer 1 9 ⟨1, 140, "Dr. E", 50, none⟩ "CLM1000000012" 9 9
    1 ⟨some ClaimStatus.approved, some 50, none⟩ 9 ⟨1, 200, "card"⟩
    "PAY1000000009" 9 (by decide)
  exact ⟨by decide, h.1, h.2.1, h.2.2.1, h.2.2.2⟩

end ACP
